import Mathlib

/-!
Verification of the EOQ/TAC calculator functions of the repository
Python_Tutorials (notebook 5-Functions_and_Modules/Functions_and_Modules_Introduction.ipynb).

The two Python functions are pure scalar arithmetic:

  def Compute_EOQ(annual_demand, order_cost, holding_cost):
      EOQ = np.sqrt((2*annual_demand*order_cost)/holding_cost)
      return EOQ

  def Compute_EOQ_TAC(EOQ, annual_demand, order_cost, holding_cost, unit_cost):
      TAC = (annual_demand/EOQ)*order_cost + (EOQ/2)*holding_cost + unit_cost*annual_demand
      return TAC

We embed the numeric values as exact reals. Python scalar division by zero
raises ZeroDivisionError, which we model with Except: the guard of the if
mirrors exactly the condition under which the Python division raises.
numpy.sqrt applied to a negative scalar does not raise: it returns NaN
(with a RuntimeWarning, which is not an exception); we model NaN as none.
-/

/-- Model of the scalar numpy.sqrt: the real square root on nonnegative
arguments, and NaN (modelled as none) on negative arguments. -/
noncomputable def np_sqrt (x : ℝ) : Option ℝ :=
  if x < 0 then none else some (Real.sqrt x)

/-- Embedding of Compute_EOQ from the notebook: computes
np.sqrt((2*annual_demand*order_cost)/holding_cost). The Python scalar
division raises ZeroDivisionError exactly when holding_cost = 0, modelled
by the Except.error branch. -/
noncomputable def Compute_EOQ (annual_demand order_cost holding_cost : ℝ) :
    Except String (Option ℝ) :=
  if holding_cost = 0 then Except.error "ZeroDivisionError"
  else Except.ok (np_sqrt ((2 * annual_demand * order_cost) / holding_cost))

/-- Embedding of Compute_EOQ_TAC from the notebook: computes
(annual_demand/EOQ)*order_cost + (EOQ/2)*holding_cost + unit_cost*annual_demand.
The Python scalar division annual_demand/EOQ raises ZeroDivisionError exactly
when EOQ = 0, modelled by the Except.error branch. -/
noncomputable def Compute_EOQ_TAC (EOQ annual_demand order_cost holding_cost unit_cost : ℝ) :
    Except String ℝ :=
  if EOQ = 0 then Except.error "ZeroDivisionError"
  else Except.ok ((annual_demand / EOQ) * order_cost + (EOQ / 2) * holding_cost
    + unit_cost * annual_demand)

/-- Claim C1: for every annual_demand, order_cost, and nonzero holding_cost,
Compute_EOQ(annual_demand, order_cost, holding_cost) returns
sqrt(2 * annual_demand * order_cost / holding_cost), where sqrt is the
square-root function the code applies (np_sqrt, yielding the real square
root whenever the radicand is nonnegative). -/
theorem compute_EOQ_formula (annual_demand order_cost holding_cost : ℝ)
    (hh : holding_cost ≠ 0) :
    Compute_EOQ annual_demand order_cost holding_cost =
      Except.ok (np_sqrt (2 * annual_demand * order_cost / holding_cost)) := by
  simp [Compute_EOQ, hh]

/-- Witness for C1 at the notebook scenario (1000, 25, 2). -/
theorem compute_EOQ_formula_witness :
    Compute_EOQ 1000 25 2 = Except.ok (np_sqrt (2 * 1000 * 25 / 2)) :=
  compute_EOQ_formula 1000 25 2 (by norm_num)

/-- Claim C2: for every nonzero EOQ and every annual_demand, order_cost,
holding_cost, unit_cost, Compute_EOQ_TAC returns
(annual_demand / EOQ) * order_cost + (EOQ / 2) * holding_cost
+ unit_cost * annual_demand. -/
theorem compute_EOQ_TAC_formula (EOQ annual_demand order_cost holding_cost unit_cost : ℝ)
    (hE : EOQ ≠ 0) :
    Compute_EOQ_TAC EOQ annual_demand order_cost holding_cost unit_cost =
      Except.ok ((annual_demand / EOQ) * order_cost + (EOQ / 2) * holding_cost
        + unit_cost * annual_demand) := by
  simp [Compute_EOQ_TAC, hE]

/-- Witness for C2 at the notebook scenario. -/
theorem compute_EOQ_TAC_formula_witness :
    Compute_EOQ_TAC 158.11388300841898 1000 25 2 8 =
      Except.ok ((1000 / 158.11388300841898) * 25 + (158.11388300841898 / 2) * 2
        + 8 * 1000) :=
  compute_EOQ_TAC_formula 158.11388300841898 1000 25 2 8 (by norm_num)

/-- Claim C3: for every annual_demand and order_cost, calling Compute_EOQ with
holding_cost = 0 raises a division-by-zero error instead of returning a value,
and the error is what the caller receives. -/
theorem compute_EOQ_zero_holding_cost_raises (annual_demand order_cost : ℝ) :
    Compute_EOQ annual_demand order_cost 0 = Except.error "ZeroDivisionError" := by
  simp [Compute_EOQ]

/-- Claim C4: for every annual_demand, order_cost, holding_cost, unit_cost,
calling Compute_EOQ_TAC with EOQ = 0 raises a division-by-zero error instead
of returning a value. -/
theorem compute_EOQ_TAC_zero_EOQ_raises (annual_demand order_cost holding_cost unit_cost : ℝ) :
    Compute_EOQ_TAC 0 annual_demand order_cost holding_cost unit_cost =
      Except.error "ZeroDivisionError" := by
  simp [Compute_EOQ_TAC]

/-- Claim C5: for all positive annual_demand, order_cost, holding_cost,
Compute_EOQ returns (no exception, no NaN) a strictly positive result. -/
theorem compute_EOQ_pos (annual_demand order_cost holding_cost : ℝ)
    (ha : 0 < annual_demand) (ho : 0 < order_cost) (hh : 0 < holding_cost) :
    ∃ v, Compute_EOQ annual_demand order_cost holding_cost = Except.ok (some v) ∧ 0 < v := by
  have hr : 0 < 2 * annual_demand * order_cost / holding_cost := by positivity
  refine ⟨Real.sqrt (2 * annual_demand * order_cost / holding_cost), ?_, ?_⟩
  · simp [Compute_EOQ, np_sqrt, hh.ne', not_lt.mpr hr.le]
  · exact Real.sqrt_pos.mpr hr

/-- Witness for C5 at the notebook scenario (1000, 25, 2). -/
theorem compute_EOQ_pos_witness :
    ∃ v, Compute_EOQ 1000 25 2 = Except.ok (some v) ∧ 0 < v :=
  compute_EOQ_pos 1000 25 2 (by norm_num) (by norm_num) (by norm_num)

/-- Claim C8: for inputs to Compute_EOQ with nonzero holding_cost whose
radicand 2 * annual_demand * order_cost / holding_cost is negative, the call
does not raise: it returns normally, and the value is NaN (modelled as none). -/
theorem compute_EOQ_negative_radicand_returns_nan (annual_demand order_cost holding_cost : ℝ)
    (hh : holding_cost ≠ 0) (hr : 2 * annual_demand * order_cost / holding_cost < 0) :
    Compute_EOQ annual_demand order_cost holding_cost = Except.ok none := by
  simp [Compute_EOQ, np_sqrt, hh, hr]

/-- Witness for C8 at annual_demand = 1, order_cost = 1, holding_cost = -1. -/
theorem compute_EOQ_negative_radicand_returns_nan_witness :
    Compute_EOQ 1 1 (-1) = Except.ok none :=
  compute_EOQ_negative_radicand_returns_nan 1 1 (-1) (by norm_num) (by norm_num)

/-- Claim C9: for all positive EOQ, annual_demand, order_cost, holding_cost
and nonnegative unit_cost, Compute_EOQ_TAC returns a strictly positive result. -/
theorem compute_EOQ_TAC_pos (EOQ annual_demand order_cost holding_cost unit_cost : ℝ)
    (hE : 0 < EOQ) (ha : 0 < annual_demand) (ho : 0 < order_cost)
    (hh : 0 < holding_cost) (hu : 0 ≤ unit_cost) :
    ∃ t, Compute_EOQ_TAC EOQ annual_demand order_cost holding_cost unit_cost =
      Except.ok t ∧ 0 < t := by
  refine ⟨(annual_demand / EOQ) * order_cost + (EOQ / 2) * holding_cost
    + unit_cost * annual_demand, ?_, ?_⟩
  · simp [Compute_EOQ_TAC, hE.ne']
  · have h1 : 0 < (annual_demand / EOQ) * order_cost := by positivity
    have h2 : 0 < (EOQ / 2) * holding_cost := by positivity
    have h3 : 0 ≤ unit_cost * annual_demand := by positivity
    linarith

/-- Witness for C9 at the notebook scenario. -/
theorem compute_EOQ_TAC_pos_witness :
    ∃ t, Compute_EOQ_TAC 158.11388300841898 1000 25 2 8 = Except.ok t ∧ 0 < t :=
  compute_EOQ_TAC_pos 158.11388300841898 1000 25 2 8 (by norm_num) (by norm_num)
    (by norm_num) (by norm_num) (by norm_num)

/-- Counterexample to claim C6: the stated law EOQ(a,o,h) = EOQ(k^2*a, o, h/k^2)
fails at a = o = h = 1 with k = 2, and the stated particular instance
(doubling holding_cost while quadrupling annual_demand leaves Compute_EOQ
unchanged) fails at the notebook scenario (1000, 25, 2). -/
theorem compute_EOQ_scaling_counterexample :
    Compute_EOQ ((2:ℝ) ^ 2 * 1) 1 (1 / 2 ^ 2) ≠ Compute_EOQ 1 1 1 ∧
    Compute_EOQ (4 * 1000) 25 (2 * 2) ≠ Compute_EOQ 1000 25 2 := by
  constructor
  · intro heq
    norm_num [Compute_EOQ, np_sqrt, Real.sqrt_inj] at heq
  · intro heq
    norm_num [Compute_EOQ, np_sqrt, Real.sqrt_inj] at heq

/-- Claim C6 amended: for all positive a, o, h and positive k, the
transformation of the stated law scales the result by k^2, namely
EOQ(k^2*a, o, h/k^2) = k^2 * EOQ(a, o, h); in particular, doubling
holding_cost while quadrupling annual_demand multiplies the result of
Compute_EOQ by sqrt 2 rather than leaving it unchanged. -/
theorem compute_EOQ_scaling_amended (a o h k : ℝ)
    (ha : 0 < a) (ho : 0 < o) (hh : 0 < h) (hk : 0 < k) :
    ∃ v, Compute_EOQ a o h = Except.ok (some v) ∧
      Compute_EOQ (k ^ 2 * a) o (h / k ^ 2) = Except.ok (some (k ^ 2 * v)) ∧
      Compute_EOQ (4 * a) o (2 * h) = Except.ok (some (Real.sqrt 2 * v)) := by
  have hr : 0 < 2 * a * o / h := by positivity
  refine ⟨Real.sqrt (2 * a * o / h), ?_, ?_, ?_⟩
  · simp [Compute_EOQ, np_sqrt, hh.ne', not_lt.mpr hr.le]
  · have hhk : h / k ^ 2 ≠ 0 := by positivity
    have hrad : 2 * (k ^ 2 * a) * o / (h / k ^ 2) = (k ^ 2) ^ 2 * (2 * a * o / h) := by
      field_simp
      ring
    have hr2 : 0 < 2 * (k ^ 2 * a) * o / (h / k ^ 2) := by
      rw [hrad]; positivity
    simp only [Compute_EOQ, np_sqrt, if_neg hhk, if_neg (not_lt.mpr hr2.le), hrad]
    rw [Real.sqrt_mul (by positivity) (2 * a * o / h),
      Real.sqrt_sq (by positivity : (0:ℝ) ≤ k ^ 2),
      if_neg (not_lt.mpr (by positivity : (0:ℝ) ≤ (k ^ 2) ^ 2 * (2 * a * o / h)))]
  · have hh2 : 2 * h ≠ 0 := by positivity
    have hrad : 2 * (4 * a) * o / (2 * h) = 2 * (2 * a * o / h) := by
      field_simp
      ring
    have hr3 : 0 < 2 * (4 * a) * o / (2 * h) := by positivity
    simp only [Compute_EOQ, np_sqrt, if_neg hh2, if_neg (not_lt.mpr hr3.le), hrad]
    rw [Real.sqrt_mul (by norm_num : (0:ℝ) ≤ 2) (2 * a * o / h),
      if_neg (not_lt.mpr (by positivity : (0:ℝ) ≤ 2 * (2 * a * o / h)))]

/-- Witness for the amended C6 at a = o = h = 1, k = 2. -/
theorem compute_EOQ_scaling_amended_witness :
    ∃ v, Compute_EOQ 1 1 1 = Except.ok (some v) ∧
      Compute_EOQ ((2:ℝ) ^ 2 * 1) 1 (1 / 2 ^ 2) = Except.ok (some (2 ^ 2 * v)) ∧
      Compute_EOQ (4 * 1) 1 (2 * 1) = Except.ok (some (Real.sqrt 2 * v)) :=
  compute_EOQ_scaling_amended 1 1 1 2 (by norm_num) (by norm_num) (by norm_num) (by norm_num)

/-- Claim C7: in the notebook scenario, Compute_EOQ 1000 25 2 is within 1e-9
of 158.11388300841898, and Compute_EOQ_TAC 158.11388300841898 1000 25 2 8 is
within 1e-6 of 8316.227766016838. -/
theorem compute_EOQ_concrete_scenario :
    (∃ v, Compute_EOQ 1000 25 2 = Except.ok (some v) ∧
      |v - 158.11388300841898| ≤ 1e-9) ∧
    (∃ t, Compute_EOQ_TAC 158.11388300841898 1000 25 2 8 = Except.ok t ∧
      |t - 8316.227766016838| ≤ 1e-6) := by
  constructor
  · refine ⟨Real.sqrt 25000, ?_, ?_⟩
    · norm_num [Compute_EOQ, np_sqrt]
    · have hub : Real.sqrt 25000 < 158.11388300841898 + 1e-9 := by
        have h1 : Real.sqrt 25000 < Real.sqrt ((158.11388300841898 + 1e-9) ^ 2) := by
          apply Real.sqrt_lt_sqrt (by norm_num)
          norm_num
        rwa [Real.sqrt_sq (by norm_num)] at h1
      have hlb : 158.11388300841898 - 1e-9 < Real.sqrt 25000 := by
        have h1 : Real.sqrt ((158.11388300841898 - 1e-9) ^ 2) < Real.sqrt 25000 := by
          apply Real.sqrt_lt_sqrt (by positivity)
          norm_num
        rwa [Real.sqrt_sq (by norm_num)] at h1
      rw [abs_le]
      constructor <;> linarith
  · refine ⟨(1000 / 158.11388300841898) * 25 + (158.11388300841898 / 2) * 2
      + 8 * 1000, ?_, ?_⟩
    · norm_num [Compute_EOQ_TAC]
    · rw [abs_le]
      constructor <;> norm_num

/-- Claim C10: for all positive annual_demand, order_cost, holding_cost,
letting Q be the value returned by Compute_EOQ, the ordering-cost term of
Compute_EOQ_TAC equals its holding-cost term, (a / Q) * o = (Q / 2) * h, and
therefore Compute_EOQ_TAC Q a o h u returns Q * h + u * a for every unit_cost u. -/
theorem compute_EOQ_TAC_cost_balance (a o h : ℝ)
    (ha : 0 < a) (ho : 0 < o) (hh : 0 < h) :
    ∃ Q, Compute_EOQ a o h = Except.ok (some Q) ∧
      (a / Q) * o = (Q / 2) * h ∧
      ∀ u, Compute_EOQ_TAC Q a o h u = Except.ok (Q * h + u * a) := by
  have hr : 0 < 2 * a * o / h := by positivity
  have hQ : 0 < Real.sqrt (2 * a * o / h) := Real.sqrt_pos.mpr hr
  have hQ2 : Real.sqrt (2 * a * o / h) ^ 2 = 2 * a * o / h := Real.sq_sqrt hr.le
  have hbal : (a / Real.sqrt (2 * a * o / h)) * o
      = (Real.sqrt (2 * a * o / h) / 2) * h := by
    have h1 : Real.sqrt (2 * a * o / h) ^ 2 * h = 2 * a * o := by
      rw [hQ2, div_mul_cancel₀ _ hh.ne']
    rw [div_mul_eq_mul_div, div_mul_eq_mul_div,
      div_eq_div_iff hQ.ne' (by norm_num : (2:ℝ) ≠ 0)]
    linear_combination -h1
  refine ⟨Real.sqrt (2 * a * o / h), ?_, hbal, ?_⟩
  · simp [Compute_EOQ, np_sqrt, hh.ne', not_lt.mpr hr.le]
  · intro u
    simp only [Compute_EOQ_TAC, if_neg hQ.ne']
    congr 1
    rw [hbal]
    ring

/-- Witness for C10 at the notebook scenario (1000, 25, 2). -/
theorem compute_EOQ_TAC_cost_balance_witness :
    ∃ Q, Compute_EOQ 1000 25 2 = Except.ok (some Q) ∧
      (1000 / Q) * 25 = (Q / 2) * 2 ∧
      ∀ u, Compute_EOQ_TAC Q 1000 25 2 u = Except.ok (Q * 2 + u * 1000) :=
  compute_EOQ_TAC_cost_balance 1000 25 2 (by norm_num) (by norm_num) (by norm_num)
